import Mathlib

/-!
Shallow embedding of the Call Monitoring & Spy-Recording Orchestrator:
the PBX call-correlation engine and reconnect backoff from
`apps/twilio/pbx_monitor.py`, and the cleanup handler
`CleanupSpyCallView.post` from `apps/tasks/views.py`.

Python dict/string conventions are made explicit: optional JSON fields
are `Option String` (absent and null are conflated), Python truthiness
of an optional string is `truthy`, and `a or b` on optional strings is
`pyOr`.  The in-memory dict `pending_calls` is an association list with
dict semantics (`alookup` / `ainsert` / `aerase`), and the set
`processed_answered_calls` is a list with membership, insert and
discard.
-/

/-- Python truthiness of an optional string: `None` and `""` are falsy. -/
def truthy : Option String → Bool
  | none => false
  | some s => !(s == "")

/-- Python `a or b` on optional strings: `a` when truthy, else `b`. -/
def pyOr (a b : Option String) : Option String :=
  match a with
  | none => b
  | some s => if s = "" then b else some s

/-- `num_str.startswith('7')`, expressed on the character list so that
it evaluates by kernel reduction. -/
def startsWith7 (s : String) : Bool :=
  match s.data with
  | [] => false
  | c :: _ => c == '7'

/-- `is_did` from `pbx_monitor.py`: `if not num: return False;
return num_str.startswith('7') and len(num_str) == 10`. -/
def is_did (num : Option String) : Bool :=
  match num with
  | none => false
  | some s => if s = "" then false else (startsWith7 s && s.length == 10)

/-- A raw SPOP event from the Buffalo PBX feed (the JSON fields the
engine reads). -/
structure PbxEvent where
  event : Option String
  callid : Option String
  uniqueid : Option String
  stype : Option String
  snumber : Option String
  dnumber : Option String
  cnumber : Option String
  callername : Option String
  callername_internal : Option String
deriving Repr, DecidableEq

/-- The dict stored in `pending_calls[call_id]`. -/
structure PendingCall where
  spyNumber : String
  direction : String
  caller : String
  destNum : String
  callId : String
  snumber : Option String
  dnumber : Option String
  cnumber : Option String
deriving Repr, DecidableEq

/-- Association-list lookup with Python dict semantics. -/
def alookup (m : List (String × PendingCall)) (k : String) : Option PendingCall :=
  match m with
  | [] => none
  | (k', v) :: rest => if k' = k then some v else alookup rest k

/-- Association-list insert/replace with Python dict semantics. -/
def ainsert (m : List (String × PendingCall)) (k : String) (v : PendingCall) :
    List (String × PendingCall) :=
  match m with
  | [] => [(k, v)]
  | (k', v') :: rest => if k' = k then (k, v) :: rest else (k', v') :: ainsert rest k v

/-- Association-list delete with Python dict semantics. -/
def aerase (m : List (String × PendingCall)) (k : String) :
    List (String × PendingCall) :=
  match m with
  | [] => []
  | (k', v') :: rest => if k' = k then aerase rest k else (k', v') :: aerase rest k

/-- The engine's mutable module-level state: `pending_calls` and
`processed_answered_calls`. -/
structure EngineState where
  pending_calls : List (String × PendingCall)
  processed_answered_calls : List String
deriving Repr, DecidableEq

/-- Observable side effects of one event-processing step: the SPY
dispatch on `answered` and the cleanup dispatch on `terminated`. -/
inductive Signal where
  | spy (ext : String) (details : PendingCall)
  | cleanup (callId : String)
deriving Repr, DecidableEq

/-- `call_id = event.get('callid') or event.get('uniqueid'); if not call_id: return`. -/
def getCallId (e : PbxEvent) : Option String :=
  match pyOr e.callid e.uniqueid with
  | none => none
  | some s => if s = "" then none else some s

/-- The tail of the `new`/`ringing` branch for `stype = phone/external`:
the self-extension skip, the truthiness check on the derived agent
extension, and the upsert of a PendingCall. -/
def trackCall (ownExt : String) (s : EngineState) (e : PbxEvent) (cid : String)
    (agentExt : Option String) (direction : String) : EngineState × List Signal :=
  if agentExt = some ownExt then (s, [])
  else
    match agentExt with
    | none => (s, [])
    | some a =>
      if a = "" then (s, [])
      else
        (⟨ainsert s.pending_calls cid
            { spyNumber := a
              direction := direction
              caller := e.callername_internal.getD (e.callername.getD "Unknown")
              destNum := e.dnumber.getD "N/A"
              callId := cid
              snumber := e.snumber
              dnumber := e.dnumber
              cnumber := e.cnumber },
          s.processed_answered_calls⟩, [])

/-- The `new`/`ringing` branch of `process_buffalo_event`, dispatching
on `stype`. -/
def handleRing (ownExt : String) (s : EngineState) (e : PbxEvent) (cid : String) :
    EngineState × List Signal :=
  if e.stype = some "phone" then
    trackCall ownExt s e cid (if is_did e.snumber then e.dnumber else e.snumber) "OUTBOUND"
  else if e.stype = some "external" then
    trackCall ownExt s e cid (if is_did e.cnumber then e.dnumber else e.cnumber) "INBOUND"
  else if e.stype = some "queue" then
    match alookup s.pending_calls cid, e.dnumber with
    | some p, some d =>
      if d = "" then (s, [])
      else (⟨ainsert s.pending_calls cid { p with spyNumber := d },
             s.processed_answered_calls⟩, [])
    | _, _ => (s, [])
  else (s, [])

/-- One step of `process_buffalo_event`, returning the new state and
the dispatched signals. -/
def processEvent (ownExt : String) (s : EngineState) (e : PbxEvent) :
    EngineState × List Signal :=
  match getCallId e with
  | none => (s, [])
  | some cid =>
    if e.event = some "new" ∨ e.event = some "ringing" then
      handleRing ownExt s e cid
    else if e.event = some "answered" then
      match alookup s.pending_calls cid with
      | some p =>
        if cid ∈ s.processed_answered_calls then (s, [])
        else (⟨aerase s.pending_calls cid, cid :: s.processed_answered_calls⟩,
              [Signal.spy p.spyNumber p])
      | none => (s, [])
    else if e.event = some "terminated" then
      (⟨aerase s.pending_calls cid,
        s.processed_answered_calls.filter (fun x => x ≠ cid)⟩,
       [Signal.cleanup cid])
    else (s, [])

/-- Fold `processEvent` over an event list, accumulating signals. -/
def processEvents (ownExt : String) (s : EngineState) : List PbxEvent →
    EngineState × List Signal
  | [] => (s, [])
  | e :: rest =>
    let r1 := processEvent ownExt s e
    let r2 := processEvents ownExt r1.1 rest
    (r2.1, r1.2 ++ r2.2)

/-- Number of SPY-dispatch signals in a signal list. -/
def spyCount (sigs : List Signal) : Nat :=
  sigs.countP (fun sg => match sg with | Signal.spy _ _ => true | _ => false)

/-- The engine's state at process start: both maps empty. -/
def emptyState : EngineState := ⟨[], []⟩

/-- An `answered` event carrying only a callid. -/
def answeredEv (c : String) : PbxEvent :=
  ⟨some "answered", some c, none, none, none, none, none, none, none⟩

/-- A `terminated` event carrying only a callid. -/
def terminatedEv (c : String) : PbxEvent :=
  ⟨some "terminated", some c, none, none, none, none, none, none, none⟩

/-- A `queue`-typed `ringing` event routing the call to extension `d`. -/
def queueRingEv (c d : String) : PbxEvent :=
  ⟨some "ringing", some c, none, some "queue", none, some d, none, none, none⟩

/-- The `new` phone-typed event of the C6 scenario. -/
def newPhoneEv (cid : String) : PbxEvent :=
  ⟨some "new", some cid, none, some "phone", some "02920997", some "7001234567",
   none, none, none⟩

/-- The `new` external-typed event of the C6 scenario. -/
def newExternalEv (cid : String) : PbxEvent :=
  ⟨some "new", some cid, none, some "external", none, some "02920998",
   some "7009876543", none, none⟩

/-- The suffix of the C1 scenario: one `answered`, an optional
duplicate `answered`, then one `terminated`. -/
def answeredSuite (c : String) (dup : Bool) : List PbxEvent :=
  if dup then [answeredEv c, answeredEv c, terminatedEv c]
  else [answeredEv c, terminatedEv c]

/-- The wait computed in `connect_to_buffalo_pbx` after `retry_count`
has been incremented:
`min(2 ** min(retry_count, 6), max_reconnect_delay)`. -/
def backoffWait (maxReconnectDelay : Nat) (retry_count : Nat) : Nat :=
  min (2 ^ min retry_count 6) maxReconnectDelay

/-- The reconnect loop of `connect_to_buffalo_pbx`, abstracted over a
trace of iterations.  Each `Bool` records whether the iteration reached
a successful connection before dropping; the function returns the
sleep durations in order.  The counter is reset to zero on a
successful connection (`retry_count = 0`) and incremented before the
wait is computed (`retry_count += 1` precedes `wait_time = ...`). -/
def connectionWaits (maxDelay : Nat) : List Bool → Nat → List Nat
  | [], _ => []
  | true :: rest, _ => backoffWait maxDelay (0 + 1) :: connectionWaits maxDelay rest (0 + 1)
  | false :: rest, rc => backoffWait maxDelay (rc + 1) :: connectionWaits maxDelay rest (rc + 1)

/-! ## Cleanup Orchestrator (`CleanupSpyCallView.post`)

The handler is embedded as a pure function over an environment that
fixes the outcomes of its collaborators (session lookup, hangup,
recording poll, download, upload).  The observable effects — hangups,
poll calls, downloads, uploads, transcription dispatches and status
writes — are returned alongside the HTTP response. -/

/-- Outcome of one `client.recordings.list(call_sid=...)` call:
a recording, an empty listing, or a `TwilioRestException`. -/
inductive PollOutcome where
  | found (sid uri : String)
  | noRecording
  | apiError
deriving Repr, DecidableEq

/-- The columns the handler selects from the sessions table. -/
structure SessionRow where
  id : String
  call_sid : Option String
  status : Option String
  recording_sid : Option String
  audio_storage_path : Option String
deriving Repr, DecidableEq

/-- Fixed collaborator outcomes for one run of the handler. -/
structure CleanupEnv where
  supabaseAvailable : Bool
  lookupResult : Option SessionRow
  hangupSuccess : Bool
  poll : Nat → PollOutcome
  downloadSuccess : Bool
  uploadSuccess : Bool
  uploadPath : String

/-- Side effects performed by one run of the handler. -/
structure CleanupEffects where
  hangups : Nat
  pollCalls : Nat
  downloads : Nat
  uploads : Nat
  transcriptionDispatches : Nat
  statusWrites : List String
deriving Repr, DecidableEq

/-- The HTTP response of one run of the handler. -/
structure CleanupResponse where
  httpStatus : Nat
  success : Bool
deriving Repr, DecidableEq

/-- Python `status_value in [...]` on an optional status string. -/
def statusIn (st : Option String) (l : List String) : Bool :=
  match st with
  | none => false
  | some v => l.contains v

/-- The code's list in `if status_value in ['recorded', 'transcribed',
'completed']` guarding the already-processed no-op. -/
def cleanupTerminalStatuses : List String := ["recorded", "transcribed", "completed"]

/-- The active statuses for which a hangup is issued. -/
def activeStatuses : List String := ["initiated", "calling", "in_progress"]

/-- The recording-poll loop: `while elapsed_time < max_poll_time`
(`max_poll_time = 300`, `poll_interval = 10`); first hit breaks, a
`TwilioRestException` breaks with no recording, an empty listing
sleeps 10s and retries.  Returns the recording (if any) and the number
of listing calls made. -/
def runPoll (poll : Nat → PollOutcome) (k elapsed : Nat) :
    Option (String × String) × Nat :=
  if _h : elapsed < 300 then
    match poll k with
    | .found sid uri => (some (sid, uri), 1)
    | .apiError => (none, 1)
    | .noRecording =>
      let r := runPoll poll (k + 1) (elapsed + 10)
      (r.1, r.2 + 1)
  else (none, 0)
termination_by 300 - elapsed
decreasing_by omega

/-- `CleanupSpyCallView.post`: request validation, session lookup, the
already-downloaded idempotence branch, hangup of still-active calls,
the bounded recording poll, download/upload/update, and transcription
dispatch.  Both transcription paths (durable queue and the local
fallback) count as one dispatch. -/
def cleanupSpyCall (env : CleanupEnv) (buffaloCallId : Option String) :
    CleanupResponse × CleanupEffects :=
  if !(truthy buffaloCallId) then (⟨400, false⟩, ⟨0, 0, 0, 0, 0, []⟩)
  else if !env.supabaseAvailable then (⟨503, false⟩, ⟨0, 0, 0, 0, 0, []⟩)
  else
    match env.lookupResult with
    | none => (⟨200, true⟩, ⟨0, 0, 0, 0, 0, []⟩)
    | some row =>
      if truthy row.recording_sid && truthy row.audio_storage_path then
        if statusIn row.status cleanupTerminalStatuses then
          (⟨200, true⟩, ⟨0, 0, 0, 0, 0, []⟩)
        else
          (⟨200, true⟩, ⟨0, 0, 0, 0, 1, []⟩)
      else if !(truthy row.call_sid) then (⟨200, true⟩, ⟨0, 0, 0, 0, 0, []⟩)
      else
        let hang : Nat := if statusIn row.status activeStatuses then 1 else 0
        let pr := runPoll env.poll 0 0
        match pr.1 with
        | none =>
          (⟨200, true⟩, ⟨hang, pr.2, 0, 0, 0, ["completed"]⟩)
        | some _ =>
          if !env.downloadSuccess then
            (⟨500, false⟩, ⟨hang, pr.2, 1, 0, 0, []⟩)
          else if !env.uploadSuccess then
            (⟨500, false⟩, ⟨hang, pr.2, 1, 1, 0, []⟩)
          else
            (⟨200, true⟩, ⟨hang, pr.2, 1, 1, 1, ["recorded"]⟩)

/-! ## Concrete values used by the witness theorems -/

/-- A sample PendingCall used by witnesses. -/
def pcW : PendingCall :=
  ⟨"2001", "INBOUND", "Unknown", "N/A", "a1", none, none, none⟩

/-- A sample engine state used by the C2 witness. -/
def stW2 : EngineState := ⟨[("a1", pcW)], ["a1", "c9"]⟩

/-- A sample engine state used by the C8 and C9 witnesses. -/
def stW8 : EngineState := ⟨[("c1", pcW)], []⟩

/-- Session row with the recording already persisted (C3 witness). -/
def rowW3 : SessionRow :=
  ⟨"s1", some "CA1", some "in_progress", some "RE1", some "rec/a.mp3"⟩

/-- Environment for the C3 witness. -/
def envW3 : CleanupEnv :=
  ⟨true, some rowW3, true, fun _ => PollOutcome.noRecording, true, true, "p"⟩

/-- Session row with no recording persisted yet (C4 and C10 witnesses). -/
def rowW4 : SessionRow := ⟨"s2", some "CA2", some "in_progress", none, none⟩

/-- Environment whose recording poll never finds anything (C4 witness). -/
def envW4 : CleanupEnv :=
  ⟨true, some rowW4, true, fun _ => PollOutcome.noRecording, true, true, "p"⟩

/-- Environment whose third recording poll raises (C10 witness). -/
def envW10 : CleanupEnv :=
  ⟨true, some rowW4, true,
   fun k => if k = 2 then PollOutcome.apiError else PollOutcome.noRecording,
   true, true, "p"⟩

/-! ## Theorems -/

/-- **C7** — `is_did` is true exactly when the number is present,
its first character is `'7'` and it has exactly 10 characters; it is
false on an absent or empty number; and it gives the documented
verdicts on the three spec examples. -/
theorem c7_is_did_spec :
    (∀ s : String, is_did (some s) = true ↔ (s.data.head? = some '7' ∧ s.length = 10)) ∧
    is_did none = false ∧
    is_did (some "") = false ∧
    is_did (some "7001234567") = true ∧
    is_did (some "02920997") = false ∧
    is_did (some "7123456") = false := by
  refine ⟨?_, rfl, by decide, by decide, by decide, by decide⟩
  intro s
  rcases s with ⟨l⟩
  cases l with
  | nil => decide
  | cons c cs =>
    have hne : String.mk (c :: cs) ≠ "" := by
      intro h
      exact List.cons_ne_nil c cs (congrArg String.data h)
    simp [is_did, hne, startsWith7, String.length]

theorem backoffWait_closed (n : Nat) (h : 1 ≤ n) :
    backoffWait 60 n = if n ≤ 5 then 2 ^ n else 60 := by
  by_cases h5 : n ≤ 5
  · interval_cases n <;> simp [backoffWait]
  · have h6 : 6 ≤ n := by omega
    simp [backoffWait, Nat.min_eq_right h6, h5]

theorem connectionWaits_replicate_false (k rc : Nat) :
    connectionWaits 60 (List.replicate k false) rc
      = (List.range k).map (fun i => backoffWait 60 (rc + i + 1)) := by
  induction k generalizing rc with
  | zero => simp [connectionWaits]
  | succ n ih =>
    rw [List.replicate_succ, List.range_succ_eq_map]
    simp only [connectionWaits, List.map_cons, List.map_map]
    congr 1
    rw [ih]
    apply List.map_congr_left
    intro i _
    simp only [Function.comp]
    congr 1
    omega

/-- **C5** — consecutive-failure waits with `maxReconnectDelay = 60`
are `2, 4, 8, 16, 32, 60, 60, …` (the counter is incremented before
the wait is computed), and a successful connection resets the counter
to zero (the waits after it do not depend on the prior counter). -/
theorem c5_reconnect_backoff :
    (∀ k : Nat, connectionWaits 60 (List.replicate k false) 0
        = (List.range k).map (fun i => if i + 1 ≤ 5 then 2 ^ (i + 1) else 60)) ∧
    (∀ (rest : List Bool) (rc : Nat),
        connectionWaits 60 (true :: rest) rc = connectionWaits 60 (true :: rest) 0) ∧
    connectionWaits 60 (List.replicate 7 false) 0 = [2, 4, 8, 16, 32, 60, 60] := by
  have hmap : ∀ k : Nat, connectionWaits 60 (List.replicate k false) 0
      = (List.range k).map (fun i => if i + 1 ≤ 5 then 2 ^ (i + 1) else 60) := by
    intro k
    rw [connectionWaits_replicate_false]
    apply List.map_congr_left
    intro i _
    rw [Nat.zero_add, backoffWait_closed (i + 1) (by omega)]
  refine ⟨hmap, ?_, ?_⟩
  · intro rest rc
    simp [connectionWaits]
  · rw [hmap]
    decide

theorem alookup_ainsert_self (m : List (String × PendingCall)) (k : String)
    (v : PendingCall) : alookup (ainsert m k v) k = some v := by
  induction m with
  | nil => simp [ainsert, alookup]
  | cons hd tl ih =>
    obtain ⟨a, b⟩ := hd
    by_cases h : a = k
    · simp [ainsert, alookup, h]
    · simp [ainsert, alookup, h, ih]

theorem alookup_ainsert_ne (m : List (String × PendingCall)) (k k' : String)
    (v : PendingCall) (h : k' ≠ k) :
    alookup (ainsert m k v) k' = alookup m k' := by
  have h' : k ≠ k' := Ne.symm h
  induction m with
  | nil => simp [ainsert, alookup, h']
  | cons hd tl ih =>
    obtain ⟨a, b⟩ := hd
    by_cases ha : a = k
    · subst ha
      simp [ainsert, alookup, h']
    · simp [ainsert, alookup, ha, ih]

theorem alookup_aerase_self (m : List (String × PendingCall)) (k : String) :
    alookup (aerase m k) k = none := by
  induction m with
  | nil => simp [aerase, alookup]
  | cons hd tl ih =>
    obtain ⟨a, b⟩ := hd
    by_cases h : a = k
    · simp [aerase, h, ih]
    · simp [aerase, alookup, h, ih]

theorem alookup_aerase_ne (m : List (String × PendingCall)) (k k' : String)
    (h : k' ≠ k) : alookup (aerase m k) k' = alookup m k' := by
  have h' : k ≠ k' := Ne.symm h
  induction m with
  | nil => simp [aerase]
  | cons hd tl ih =>
    obtain ⟨a, b⟩ := hd
    by_cases ha : a = k
    · subst ha
      simp [aerase, alookup, h', ih]
    · simp [aerase, alookup, ha, ih]

theorem trackCall_signals_processed (ownExt : String) (s : EngineState)
    (e : PbxEvent) (cid : String) (agentExt : Option String) (direction : String) :
    (trackCall ownExt s e cid agentExt direction).2 = [] ∧
    (trackCall ownExt s e cid agentExt direction).1.processed_answered_calls
      = s.processed_answered_calls := by
  unfold trackCall
  repeat' split
  all_goals simp

theorem handleRing_signals_processed (ownExt : String) (s : EngineState)
    (e : PbxEvent) (cid : String) :
    (handleRing ownExt s e cid).2 = [] ∧
    (handleRing ownExt s e cid).1.processed_answered_calls
      = s.processed_answered_calls := by
  unfold handleRing trackCall
  repeat' split
  all_goals simp

theorem ring_no_spy (ownExt : String) (s : EngineState) (e : PbxEvent)
    (h : e.event = some "new" ∨ e.event = some "ringing") :
    (processEvent ownExt s e).2 = [] ∧
    (processEvent ownExt s e).1.processed_answered_calls
      = s.processed_answered_calls := by
  unfold processEvent
  rcases hg : getCallId e with _ | cid
  · simp
  · simp only [hg]
    rw [if_pos h]
    exact handleRing_signals_processed ownExt s e cid

theorem processEvents_ring_prefix (ownExt : String) (pre : List PbxEvent)
    (h : ∀ e ∈ pre, e.event = some "new" ∨ e.event = some "ringing")
    (s : EngineState) :
    (processEvents ownExt s pre).2 = [] ∧
    (processEvents ownExt s pre).1.processed_answered_calls
      = s.processed_answered_calls := by
  induction pre generalizing s with
  | nil => simp [processEvents]
  | cons e rest ih =>
    have he := h e (List.mem_cons_self e rest)
    have hrest : ∀ x ∈ rest, x.event = some "new" ∨ x.event = some "ringing" :=
      fun x hx => h x (List.mem_cons_of_mem e hx)
    have h1 := ring_no_spy ownExt s e he
    have h2 := ih hrest (processEvent ownExt s e).1
    simp only [processEvents]
    constructor
    · rw [h1.1, h2.1]
      rfl
    · rw [h2.2, h1.2]

/-- **C2** — a `terminated` event carrying a callId removes any
PendingCall for it, removes it from the processed-answered guard
(a no-op when absent), leaves every other callId untouched, and
always dispatches exactly one cleanup signal, from any state. -/
theorem c2_terminated_cleanup (ownExt : String) (s : EngineState) (e : PbxEvent)
    (cid : String) (hev : e.event = some "terminated")
    (hcid : getCallId e = some cid) :
    (processEvent ownExt s e).2 = [Signal.cleanup cid] ∧
    alookup (processEvent ownExt s e).1.pending_calls cid = none ∧
    cid ∉ (processEvent ownExt s e).1.processed_answered_calls ∧
    (∀ k, k ≠ cid →
      alookup (processEvent ownExt s e).1.pending_calls k = alookup s.pending_calls k) ∧
    (∀ x, x ≠ cid →
      (x ∈ (processEvent ownExt s e).1.processed_answered_calls ↔
        x ∈ s.processed_answered_calls)) := by
  have hstep : processEvent ownExt s e
      = (⟨aerase s.pending_calls cid,
          s.processed_answered_calls.filter (fun x => x ≠ cid)⟩,
         [Signal.cleanup cid]) := by
    unfold processEvent
    simp [hcid, hev]
  rw [hstep]
  refine ⟨rfl, alookup_aerase_self _ _, ?_, ?_, ?_⟩
  · simp [List.mem_filter]
  · intro k hk
    exact alookup_aerase_ne _ _ _ hk
  · intro x hx
    simp [List.mem_filter, hx]

theorem c2_witness :
    ((terminatedEv "c9").event = some "terminated") ∧
    (getCallId (terminatedEv "c9") = some "c9") ∧
    (processEvent "2000" stW2 (terminatedEv "c9")).2 = [Signal.cleanup "c9"] ∧
    alookup (processEvent "2000" stW2 (terminatedEv "c9")).1.pending_calls "c9" = none ∧
    "c9" ∉ (processEvent "2000" stW2 (terminatedEv "c9")).1.processed_answered_calls :=
  ⟨by decide, by decide,
   (c2_terminated_cleanup "2000" stW2 (terminatedEv "c9") "c9" (by decide) (by decide)).1,
   (c2_terminated_cleanup "2000" stW2 (terminatedEv "c9") "c9" (by decide) (by decide)).2.1,
   (c2_terminated_cleanup "2000" stW2 (terminatedEv "c9") "c9" (by decide) (by decide)).2.2.1⟩

/-- **C6** — a `new` phone-typed event with non-DID `snumber`
`"02920997"` and `dnumber` `"7001234567"` creates a PendingCall with
agent extension `"02920997"` and direction OUTBOUND; a `new`
external-typed event with DID `cnumber` `"7009876543"` and `dnumber`
`"02920998"` creates one with agent extension `"02920998"` and
direction INBOUND (the derived extension must differ from the
configured own extension, or the event is skipped). -/
theorem c6_new_event_direction (ownExt cid : String) (s : EngineState)
    (hc : cid ≠ "") (h1 : ownExt ≠ "02920997") (h2 : ownExt ≠ "02920998") :
    (∃ p : PendingCall,
      alookup (processEvent ownExt s (newPhoneEv cid)).1.pending_calls cid = some p ∧
      p.spyNumber = "02920997" ∧ p.direction = "OUTBOUND") ∧
    (∃ p : PendingCall,
      alookup (processEvent ownExt s (newExternalEv cid)).1.pending_calls cid = some p ∧
      p.spyNumber = "02920998" ∧ p.direction = "INBOUND") := by
  have hd1 : is_did (some "02920997") = false := by decide
  have hd2 : is_did (some "7009876543") = true := by decide
  have hg1 : getCallId (newPhoneEv cid) = some cid := by
    simp [getCallId, newPhoneEv, pyOr, hc]
  have hg2 : getCallId (newExternalEv cid) = some cid := by
    simp [getCallId, newExternalEv, pyOr, hc]
  constructor
  · have e1 : processEvent ownExt s (newPhoneEv cid)
        = (⟨ainsert s.pending_calls cid
              { spyNumber := "02920997", direction := "OUTBOUND",
                caller := "Unknown", destNum := "7001234567", callId := cid,
                snumber := some "02920997", dnumber := some "7001234567",
                cnumber := none },
            s.processed_answered_calls⟩, []) := by
      unfold processEvent
      rw [hg1]
      simp [newPhoneEv, handleRing, trackCall, hd1, Ne.symm h1]
    rw [e1]
    exact ⟨_, alookup_ainsert_self _ _ _, rfl, rfl⟩
  · have e2 : processEvent ownExt s (newExternalEv cid)
        = (⟨ainsert s.pending_calls cid
              { spyNumber := "02920998", direction := "INBOUND",
                caller := "Unknown", destNum := "02920998", callId := cid,
                snumber := none, dnumber := some "02920998",
                cnumber := some "7009876543" },
            s.processed_answered_calls⟩, []) := by
      unfold processEvent
      rw [hg2]
      simp [newExternalEv, handleRing, trackCall, hd2, Ne.symm h2]
    rw [e2]
    exact ⟨_, alookup_ainsert_self _ _ _, rfl, rfl⟩

theorem c6_witness :
    (("c1" : String) ≠ "" ∧ ("5000" : String) ≠ "02920997" ∧
      ("5000" : String) ≠ "02920998") ∧
    (∃ p : PendingCall,
      alookup (processEvent "5000" emptyState (newPhoneEv "c1")).1.pending_calls "c1"
          = some p ∧
      p.spyNumber = "02920997" ∧ p.direction = "OUTBOUND") ∧
    (∃ p : PendingCall,
      alookup (processEvent "5000" emptyState (newExternalEv "c1")).1.pending_calls "c1"
          = some p ∧
      p.spyNumber = "02920998" ∧ p.direction = "INBOUND") :=
  ⟨⟨by decide, by decide, by decide⟩,
   (c6_new_event_direction "5000" "c1" emptyState (by decide) (by decide) (by decide)).1,
   (c6_new_event_direction "5000" "c1" emptyState (by decide) (by decide) (by decide)).2⟩

/-- **C8** — a `queue`-typed `new`/`ringing` event for an untracked
callId changes nothing and emits nothing; for a tracked callId with a
truthy `dnumber` it only overwrites that PendingCall's agent
extension, emits nothing, leaves the guard untouched and creates no
entry for any other callId. -/
theorem c8_queue_event_safety (ownExt : String) (s : EngineState) (e : PbxEvent)
    (cid : String) (hcid : getCallId e = some cid)
    (hev : e.event = some "new" ∨ e.event = some "ringing")
    (hst : e.stype = some "queue") :
    (alookup s.pending_calls cid = none → processEvent ownExt s e = (s, [])) ∧
    (∀ p d, alookup s.pending_calls cid = some p → e.dnumber = some d → d ≠ "" →
      processEvent ownExt s e
          = (⟨ainsert s.pending_calls cid { p with spyNumber := d },
              s.processed_answered_calls⟩, []) ∧
      alookup (processEvent ownExt s e).1.pending_calls cid
          = some { p with spyNumber := d } ∧
      (∀ k, k ≠ cid →
        alookup (processEvent ownExt s e).1.pending_calls k
          = alookup s.pending_calls k)) := by
  have hstep : processEvent ownExt s e = handleRing ownExt s e cid := by
    unfold processEvent
    simp only [hcid]
    rw [if_pos hev]
  constructor
  · intro hnone
    rw [hstep]
    unfold handleRing
    simp [hst, hnone]
  · intro p d hp hd hdne
    have hupd : processEvent ownExt s e
        = (⟨ainsert s.pending_calls cid { p with spyNumber := d },
            s.processed_answered_calls⟩, []) := by
      rw [hstep]
      unfold handleRing
      simp [hst, hp, hd, hdne]
    refine ⟨hupd, ?_, ?_⟩
    · rw [hupd]
      exact alookup_ainsert_self _ _ _
    · intro k hk
      rw [hupd]
      exact alookup_ainsert_ne _ _ _ _ hk

theorem c8_witness :
    (getCallId (queueRingEv "zz" "2002") = some "zz" ∧
      (queueRingEv "zz" "2002").event = some "new" ∨
        (queueRingEv "zz" "2002").event = some "ringing") ∧
    (queueRingEv "zz" "2002").stype = some "queue" ∧
    alookup stW8.pending_calls "zz" = none ∧
    processEvent "5000" stW8 (queueRingEv "zz" "2002") = (stW8, []) :=
  ⟨Or.inr (by decide), by decide, by decide,
   (c8_queue_event_safety "5000" stW8 (queueRingEv "zz" "2002") "zz" (by decide)
     (Or.inr (by decide)) (by decide)).1 (by decide)⟩

/-- **C9** — the never-spy-on-self check is not applied on the
`queue`-routing update path: a queue ring whose `dnumber` is the
monitor's own extension overwrites the tracked PendingCall's agent
extension to the own extension, and the subsequent `answered` event
dispatches a SPY signal targeting the monitor's own extension. -/
theorem c9_queue_self_extension (ownExt c : String) (s : EngineState)
    (p : PendingCall) (hc : c ≠ "") (hown : ownExt ≠ "")
    (hp : alookup s.pending_calls c = some p)
    (hg : c ∉ s.processed_answered_calls) :
    alookup (processEvent ownExt s (queueRingEv c ownExt)).1.pending_calls c
        = some { p with spyNumber := ownExt } ∧
    (processEvent ownExt (processEvent ownExt s (queueRingEv c ownExt)).1
        (answeredEv c)).2
      = [Signal.spy ownExt { p with spyNumber := ownExt }] := by
  have hgq : getCallId (queueRingEv c ownExt) = some c := by
    simp [getCallId, queueRingEv, pyOr, hc]
  have hga : getCallId (answeredEv c) = some c := by
    simp [getCallId, answeredEv, pyOr, hc]
  have e1 : processEvent ownExt s (queueRingEv c ownExt)
      = (⟨ainsert s.pending_calls c { p with spyNumber := ownExt },
          s.processed_answered_calls⟩, []) := by
    unfold processEvent
    rw [hgq]
    simp [queueRingEv, handleRing, hp, hown]
  have hl : alookup (ainsert s.pending_calls c { p with spyNumber := ownExt }) c
      = some { p with spyNumber := ownExt } := alookup_ainsert_self _ _ _
  refine ⟨by rw [e1]; exact hl, ?_⟩
  rw [e1]
  unfold processEvent
  rw [hga]
  simp [answeredEv, hl, hg]

theorem c9_witness :
    (("c1" : String) ≠ "" ∧ ("2001" : String) ≠ "") ∧
    alookup stW8.pending_calls "c1" = some pcW ∧
    ("c1" ∉ stW8.processed_answered_calls) ∧
    alookup (processEvent "2001" stW8 (queueRingEv "c1" "2001")).1.pending_calls "c1"
        = some { pcW with spyNumber := "2001" } ∧
    (processEvent "2001" (processEvent "2001" stW8 (queueRingEv "c1" "2001")).1
        (answeredEv "c1")).2
      = [Signal.spy "2001" { pcW with spyNumber := "2001" }] :=
  ⟨⟨by decide, by decide⟩, by decide, by decide,
   (c9_queue_self_extension "2001" "c1" stW8 pcW (by decide) (by decide)
     (by decide) (by decide)).1,
   (c9_queue_self_extension "2001" "c1" stW8 pcW (by decide) (by decide)
     (by decide) (by decide)).2⟩

theorem processEvents_append (ownExt : String) (s : EngineState)
    (l1 l2 : List PbxEvent) :
    processEvents ownExt s (l1 ++ l2)
      = ((processEvents ownExt (processEvents ownExt s l1).1 l2).1,
         (processEvents ownExt s l1).2
           ++ (processEvents ownExt (processEvents ownExt s l1).1 l2).2) := by
  induction l1 generalizing s with
  | nil => simp [processEvents]
  | cons e rest ih => simp [processEvents, ih]

theorem spyCount_append (a b : List Signal) :
    spyCount (a ++ b) = spyCount a + spyCount b := by
  simp [spyCount, List.countP_append]

theorem processEvent_answered_eq (ownExt c : String) (st : EngineState)
    (hc : c ≠ "") :
    processEvent ownExt st (answeredEv c)
      = match alookup st.pending_calls c with
        | some p =>
          if c ∈ st.processed_answered_calls then (st, [])
          else (⟨aerase st.pending_calls c, c :: st.processed_answered_calls⟩,
                [Signal.spy p.spyNumber p])
        | none => (st, []) := by
  have hga : getCallId (answeredEv c) = some c := by
    simp [getCallId, answeredEv, pyOr, hc]
  unfold processEvent
  rw [hga]
  simp [answeredEv]

theorem processEvent_terminated_eq (ownExt c : String) (st : EngineState)
    (hc : c ≠ "") :
    processEvent ownExt st (terminatedEv c)
      = (⟨aerase st.pending_calls c,
          st.processed_answered_calls.filter (fun x => x ≠ c)⟩,
         [Signal.cleanup c]) := by
  have hgt : getCallId (terminatedEv c) = some c := by
    simp [getCallId, terminatedEv, pyOr, hc]
  unfold processEvent
  rw [hgt]
  simp [terminatedEv]

theorem suite_spyCount (ownExt c : String) (s0 : EngineState) (hc : c ≠ "")
    (hg : c ∉ s0.processed_answered_calls) (dup : Bool) :
    spyCount (processEvents ownExt s0 (answeredSuite c dup)).2
      = if (alookup s0.pending_calls c).isSome then 1 else 0 := by
  have ha := processEvent_answered_eq ownExt c s0 hc
  cases hpc : alookup s0.pending_calls c with
  | none =>
    have e1 : processEvent ownExt s0 (answeredEv c) = (s0, []) := by
      rw [ha, hpc]
    have et := processEvent_terminated_eq ownExt c s0 hc
    cases dup <;>
      simp [answeredSuite, processEvents, e1, et, spyCount, hpc]
  | some p =>
    have e1 : processEvent ownExt s0 (answeredEv c)
        = (⟨aerase s0.pending_calls c, c :: s0.processed_answered_calls⟩,
           [Signal.spy p.spyNumber p]) := by
      rw [ha, hpc]
      simp [hg]
    have e2 : processEvent ownExt
        (⟨aerase s0.pending_calls c, c :: s0.processed_answered_calls⟩ : EngineState)
        (answeredEv c)
        = (⟨aerase s0.pending_calls c, c :: s0.processed_answered_calls⟩, []) := by
      rw [processEvent_answered_eq ownExt c _ hc]
      simp [alookup_aerase_self]
    have et : ∀ st : EngineState, processEvent ownExt st (terminatedEv c)
        = (⟨aerase st.pending_calls c,
            st.processed_answered_calls.filter (fun x => x ≠ c)⟩,
           [Signal.cleanup c]) :=
      fun st => processEvent_terminated_eq ownExt c st hc
    cases dup <;>
      simp [answeredSuite, processEvents, e1, e2, et, spyCount, hpc]

/-- **C1 counterexample** — the claim's event-sequence shape allows
zero `new`/`ringing` events; processing just `answered` then
`terminated` for `"c1"` from the start state dispatches zero SPY
signals, not exactly one. -/
theorem c1_counterexample :
    spyCount (processEvents "2000" emptyState (answeredSuite "c1" false)).2 = 0 ∧
    spyCount (processEvents "2000" emptyState (answeredSuite "c1" false)).2 ≠ 1 := by
  constructor <;> decide

/-- **C1 (amended)** — for any prefix of `new`/`ringing` events
followed by exactly one `answered` and one `terminated` for `callId`
(with or without a duplicate `answered` injected before `terminated`),
the SPY dispatch happens exactly once when the prefix leaves a
PendingCall for that callId, and zero times otherwise; in particular
it never happens twice, and the duplicate `answered` is a no-op. -/
theorem c1_amended_spy_once (ownExt c : String) (pre : List PbxEvent) (dup : Bool)
    (hc : c ≠ "")
    (hpre : ∀ e ∈ pre, e.event = some "new" ∨ e.event = some "ringing") :
    spyCount (processEvents ownExt emptyState (pre ++ answeredSuite c dup)).2
      = if (alookup (processEvents ownExt emptyState pre).1.pending_calls c).isSome
        then 1 else 0 := by
  have hpref := processEvents_ring_prefix ownExt pre hpre emptyState
  have hg : c ∉ (processEvents ownExt emptyState pre).1.processed_answered_calls := by
    rw [hpref.2]
    simp [emptyState]
  rw [processEvents_append, spyCount_append, hpref.1]
  simp only [spyCount, List.countP_nil, Nat.zero_add]
  exact suite_spyCount ownExt c _ hc hg dup

theorem c1_witness :
    (("c1" : String) ≠ "" ∧
      (∀ e ∈ [newPhoneEv "c1"], e.event = some "new" ∨ e.event = some "ringing")) ∧
    spyCount (processEvents "5000" emptyState
        ([newPhoneEv "c1"] ++ answeredSuite "c1" true)).2
      = if (alookup (processEvents "5000" emptyState
            [newPhoneEv "c1"]).1.pending_calls "c1").isSome
        then 1 else 0 :=
  ⟨⟨by decide, by decide⟩,
   c1_amended_spy_once "5000" "c1" [newPhoneEv "c1"] true (by decide) (by decide)⟩

theorem runPoll_all_noRecording (poll : Nat → PollOutcome)
    (h : ∀ j, poll j = PollOutcome.noRecording) :
    ∀ (n k elapsed : Nat), 300 - elapsed ≤ 10 * n →
      (runPoll poll k elapsed).1 = none := by
  intro n
  induction n with
  | zero =>
    intro k elapsed hle
    have hge : ¬ elapsed < 300 := by omega
    rw [runPoll]
    simp [hge]
  | succ m ih =>
    intro k elapsed hle
    rw [runPoll]
    by_cases hlt : elapsed < 300
    · simp only [hlt, dif_pos, h k]
      exact ih (k + 1) (elapsed + 10) (by omega)
    · simp [hlt]

theorem runPoll_apiError (poll : Nat → PollOutcome) :
    ∀ (j k elapsed : Nat), (∀ i < j, poll (k + i) = PollOutcome.noRecording) →
      poll (k + j) = PollOutcome.apiError →
      (runPoll poll k elapsed).1 = none ∧ (runPoll poll k elapsed).2 ≤ j + 1 := by
  intro j
  induction j with
  | zero =>
    intro k elapsed _ herr
    rw [runPoll]
    by_cases hlt : elapsed < 300
    · have hk : poll k = PollOutcome.apiError := by simpa using herr
      simp [hlt, hk]
    · simp [hlt]
  | succ m ih =>
    intro k elapsed hfirst herr
    rw [runPoll]
    by_cases hlt : elapsed < 300
    · have h0 : poll k = PollOutcome.noRecording := by
        simpa using hfirst 0 (by omega)
      have hrest : ∀ i < m, poll ((k + 1) + i) = PollOutcome.noRecording := by
        intro i hi
        have := hfirst (i + 1) (by omega)
        have harith : k + (i + 1) = (k + 1) + i := by omega
        rwa [harith] at this
      have herr' : poll ((k + 1) + m) = PollOutcome.apiError := by
        have harith : k + (m + 1) = (k + 1) + m := by omega
        rwa [harith] at herr
      have hr := ih (k + 1) (elapsed + 10) hrest herr'
      simp only [hlt, dif_pos, h0]
      exact ⟨hr.1, by omega⟩
    · simp [hlt]

/-- **C3** — when `recordingId` and `audioStoragePath` are both
populated, cleanup performs zero downloads, zero uploads, zero hangups
and zero poll calls, writes no status, and returns HTTP 200 success;
it dispatches transcription exactly when the status is not in the
code's already-processed set `{recorded, transcribed, completed}`
(and is a pure no-op when it is). -/
theorem c3_cleanup_idempotent (env : CleanupEnv) (bid : Option String)
    (row : SessionRow) (hb : truthy bid = true)
    (hsup : env.supabaseAvailable = true)
    (hrow : env.lookupResult = some row)
    (hrec : truthy row.recording_sid = true)
    (hpath : truthy row.audio_storage_path = true) :
    (cleanupSpyCall env bid).1.httpStatus = 200 ∧
    (cleanupSpyCall env bid).1.success = true ∧
    (cleanupSpyCall env bid).2.downloads = 0 ∧
    (cleanupSpyCall env bid).2.uploads = 0 ∧
    (cleanupSpyCall env bid).2.hangups = 0 ∧
    (cleanupSpyCall env bid).2.pollCalls = 0 ∧
    (cleanupSpyCall env bid).2.statusWrites = [] ∧
    (statusIn row.status cleanupTerminalStatuses = true →
      (cleanupSpyCall env bid).2.transcriptionDispatches = 0) ∧
    (statusIn row.status cleanupTerminalStatuses = false →
      (cleanupSpyCall env bid).2.transcriptionDispatches = 1) := by
  unfold cleanupSpyCall
  rw [hrow]
  by_cases hst : statusIn row.status cleanupTerminalStatuses <;>
    simp [hb, hsup, hrec, hpath, hst]

theorem c3_witness :
    (truthy (some "bc1") = true ∧ envW3.supabaseAvailable = true ∧
      envW3.lookupResult = some rowW3 ∧ truthy rowW3.recording_sid = true ∧
      truthy rowW3.audio_storage_path = true ∧
      statusIn rowW3.status cleanupTerminalStatuses = false) ∧
    (cleanupSpyCall envW3 (some "bc1")).1.httpStatus = 200 ∧
    (cleanupSpyCall envW3 (some "bc1")).1.success = true ∧
    (cleanupSpyCall envW3 (some "bc1")).2.downloads = 0 ∧
    (cleanupSpyCall envW3 (some "bc1")).2.uploads = 0 ∧
    (cleanupSpyCall envW3 (some "bc1")).2.statusWrites = [] ∧
    (cleanupSpyCall envW3 (some "bc1")).2.transcriptionDispatches = 1 :=
  ⟨⟨by decide, rfl, rfl, by decide, by decide, by decide⟩,
   (c3_cleanup_idempotent envW3 (some "bc1") rowW3 (by decide) rfl rfl
     (by decide) (by decide)).1,
   (c3_cleanup_idempotent envW3 (some "bc1") rowW3 (by decide) rfl rfl
     (by decide) (by decide)).2.1,
   (c3_cleanup_idempotent envW3 (some "bc1") rowW3 (by decide) rfl rfl
     (by decide) (by decide)).2.2.1,
   (c3_cleanup_idempotent envW3 (some "bc1") rowW3 (by decide) rfl rfl
     (by decide) (by decide)).2.2.2.1,
   (c3_cleanup_idempotent envW3 (some "bc1") rowW3 (by decide) rfl rfl
     (by decide) (by decide)).2.2.2.2.2.2.1,
   (c3_cleanup_idempotent envW3 (some "bc1") rowW3 (by decide) rfl rfl
     (by decide) (by decide)).2.2.2.2.2.2.2.2 (by decide)⟩

/-- **C4** — when the recording poll (10s interval, 300s window,
modelled by `runPoll`) never finds a recording, cleanup writes
`status = completed`, performs no download and no upload, dispatches
no transcription, and returns HTTP 200 success: the timeout is a
terminal outcome, not a failure. -/
theorem c4_poll_timeout_completed (env : CleanupEnv) (bid : Option String)
    (row : SessionRow) (hb : truthy bid = true)
    (hsup : env.supabaseAvailable = true)
    (hrow : env.lookupResult = some row)
    (hnotdone : (truthy row.recording_sid && truthy row.audio_storage_path) = false)
    (hcs : truthy row.call_sid = true)
    (hpoll : ∀ j, env.poll j = PollOutcome.noRecording) :
    (cleanupSpyCall env bid).1.httpStatus = 200 ∧
    (cleanupSpyCall env bid).1.success = true ∧
    (cleanupSpyCall env bid).2.statusWrites = ["completed"] ∧
    (cleanupSpyCall env bid).2.downloads = 0 ∧
    (cleanupSpyCall env bid).2.uploads = 0 ∧
    (cleanupSpyCall env bid).2.transcriptionDispatches = 0 := by
  have hnone : (runPoll env.poll 0 0).1 = none :=
    runPoll_all_noRecording env.poll hpoll 30 0 0 (by omega)
  unfold cleanupSpyCall
  rw [hrow]
  simp [hb, hsup, hnotdone, hcs, hnone]

theorem c4_witness :
    (truthy (some "bc2") = true ∧ envW4.supabaseAvailable = true ∧
      envW4.lookupResult = some rowW4 ∧
      (truthy rowW4.recording_sid && truthy rowW4.audio_storage_path) = false ∧
      truthy rowW4.call_sid = true ∧
      (∀ j, envW4.poll j = PollOutcome.noRecording)) ∧
    (cleanupSpyCall envW4 (some "bc2")).1.httpStatus = 200 ∧
    (cleanupSpyCall envW4 (some "bc2")).1.success = true ∧
    (cleanupSpyCall envW4 (some "bc2")).2.statusWrites = ["completed"] ∧
    (cleanupSpyCall envW4 (some "bc2")).2.downloads = 0 ∧
    (cleanupSpyCall envW4 (some "bc2")).2.uploads = 0 :=
  ⟨⟨by decide, rfl, rfl, by decide, by decide, fun _ => rfl⟩,
   (c4_poll_timeout_completed envW4 (some "bc2") rowW4 (by decide) rfl rfl
     (by decide) (by decide) (fun _ => rfl)).1,
   (c4_poll_timeout_completed envW4 (some "bc2") rowW4 (by decide) rfl rfl
     (by decide) (by decide) (fun _ => rfl)).2.1,
   (c4_poll_timeout_completed envW4 (some "bc2") rowW4 (by decide) rfl rfl
     (by decide) (by decide) (fun _ => rfl)).2.2.1,
   (c4_poll_timeout_completed envW4 (some "bc2") rowW4 (by decide) rfl rfl
     (by decide) (by decide) (fun _ => rfl)).2.2.2.1,
   (c4_poll_timeout_completed envW4 (some "bc2") rowW4 (by decide) rfl rfl
     (by decide) (by decide) (fun _ => rfl)).2.2.2.2.1⟩

/-- **C10** — a provider API error on the `j`-th recording listing
(after `j` empty listings) aborts the poll loop at once (at most
`j + 1` listing calls) and cleanup behaves exactly as if no recording
was found: `status = completed` is written, nothing is downloaded or
uploaded, and HTTP 200 success is returned — the listing error is
never propagated as a failure. -/
theorem c10_poll_api_error_completed (env : CleanupEnv) (bid : Option String)
    (row : SessionRow) (j : Nat) (hb : truthy bid = true)
    (hsup : env.supabaseAvailable = true)
    (hrow : env.lookupResult = some row)
    (hnotdone : (truthy row.recording_sid && truthy row.audio_storage_path) = false)
    (hcs : truthy row.call_sid = true)
    (hpre : ∀ i < j, env.poll i = PollOutcome.noRecording)
    (herr : env.poll j = PollOutcome.apiError) :
    (cleanupSpyCall env bid).1.httpStatus = 200 ∧
    (cleanupSpyCall env bid).1.success = true ∧
    (cleanupSpyCall env bid).2.statusWrites = ["completed"] ∧
    (cleanupSpyCall env bid).2.downloads = 0 ∧
    (cleanupSpyCall env bid).2.uploads = 0 ∧
    (cleanupSpyCall env bid).2.transcriptionDispatches = 0 ∧
    (cleanupSpyCall env bid).2.pollCalls ≤ j + 1 := by
  have hrp := runPoll_apiError env.poll j 0 0
    (fun i hi => by simpa using hpre i hi) (by simpa using herr)
  unfold cleanupSpyCall
  rw [hrow]
  simp [hb, hsup, hnotdone, hcs, hrp.1]
  exact hrp.2

theorem c10_witness :
    (truthy (some "bc3") = true ∧ envW10.supabaseAvailable = true ∧
      envW10.lookupResult = some rowW4 ∧
      (truthy rowW4.recording_sid && truthy rowW4.audio_storage_path) = false ∧
      truthy rowW4.call_sid = true ∧
      (∀ i < 2, envW10.poll i = PollOutcome.noRecording) ∧
      envW10.poll 2 = PollOutcome.apiError) ∧
    (cleanupSpyCall envW10 (some "bc3")).1.httpStatus = 200 ∧
    (cleanupSpyCall envW10 (some "bc3")).1.success = true ∧
    (cleanupSpyCall envW10 (some "bc3")).2.statusWrites = ["completed"] ∧
    (cleanupSpyCall envW10 (some "bc3")).2.downloads = 0 ∧
    (cleanupSpyCall envW10 (some "bc3")).2.uploads = 0 ∧
    (cleanupSpyCall envW10 (some "bc3")).2.pollCalls ≤ 3 :=
  ⟨⟨by decide, rfl, rfl, by decide, by decide, by decide, by decide⟩,
   (c10_poll_api_error_completed envW10 (some "bc3") rowW4 2 (by decide) rfl rfl
     (by decide) (by decide) (by decide) (by decide)).1,
   (c10_poll_api_error_completed envW10 (some "bc3") rowW4 2 (by decide) rfl rfl
     (by decide) (by decide) (by decide) (by decide)).2.1,
   (c10_poll_api_error_completed envW10 (some "bc3") rowW4 2 (by decide) rfl rfl
     (by decide) (by decide) (by decide) (by decide)).2.2.1,
   (c10_poll_api_error_completed envW10 (some "bc3") rowW4 2 (by decide) rfl rfl
     (by decide) (by decide) (by decide) (by decide)).2.2.2.1,
   (c10_poll_api_error_completed envW10 (some "bc3") rowW4 2 (by decide) rfl rfl
     (by decide) (by decide) (by decide) (by decide)).2.2.2.2.1,
   (c10_poll_api_error_completed envW10 (some "bc3") rowW4 2 (by decide) rfl rfl
     (by decide) (by decide) (by decide) (by decide)).2.2.2.2.2.2⟩
